import Mathlib

/-!
Verification development for the MPIN validator repository.

The Python sources are shallowly embedded: Python strings become `List Char`,
Python dicts with insertion order become association lists, functions that can
raise become `Except PyError`.  Wall-clock time is modelled out (the time
budget never fires in the model); the combination budget is modelled exactly.
`list(set(xs))` is modelled as first-occurrence deduplication: Python's set
iteration order is hash-dependent and unspecified, and only membership and
emptiness of these lists are ever consumed.
-/

namespace MPIN

/-- Python strings are modelled as lists of characters. -/
abbrev Str := List Char

/-- Exceptions that the embedded code can raise: `ValueError` from the PIN
format check and the constructor, `IndexError` from string indexing in
component extraction, `NameError` from the unbound `pattern_templates`
variable when the PIN length is neither 4 nor 6. -/
inductive PyError where
  | valueError : PyError
  | indexError : PyError
  | nameError : PyError
deriving DecidableEq

/-- The closed enumeration of weakness reason codes (spec section 3). -/
inductive Reason where
  | COMMONLY_USED : Reason
  | DEMOGRAPHIC_DOB_SELF : Reason
  | DEMOGRAPHIC_DOB_SPOUSE : Reason
  | DEMOGRAPHIC_ANNIVERSARY : Reason
deriving DecidableEq

/-- Association-list lookup (first matching key), modelling Python dict access
on dicts built in insertion order. -/
def alookup {α β : Type} [DecidableEq α] : List (α × β) → α → Option β
  | [], _ => none
  | e :: rest, k => if e.1 = k then some e.2 else alookup rest k

/-- First-occurrence deduplication, the model of Python `list(set(xs))`
(membership-faithful; Python's iteration order is unspecified). -/
def dedupAux {α : Type} [DecidableEq α] (seen : List α) : List α → List α
  | [] => []
  | a :: as => if a ∈ seen then dedupAux seen as else a :: dedupAux (a :: seen) as

/-- Model of Python `list(set(xs))`. -/
def pySet {α : Type} [DecidableEq α] (l : List α) : List α := dedupAux [] l

/-- Decimal digit characters of a natural number, as Python `str(n)`. -/
def natStr (n : Nat) : Str := Nat.toDigits 10 n

/-- Python `f"{n:02d}"`: zero-pad to at least two characters. -/
def pad2 (n : Nat) : Str := if n < 10 then '0' :: natStr n else natStr n

/-- Character of `s` at index `i`; only used under a guard that makes the
index in range, the default is never reached there. -/
def charAt (s : Str) (i : Nat) : Char := (s.drop i).headD '0'

/-- Python `needle in haystack` prefix step: does `hay` start with `needle`. -/
def startsWith : Str → Str → Bool
  | [], _ => true
  | _ :: _, [] => false
  | a :: as, b :: bs => if a = b then startsWith as bs else false

/-- Python substring containment `needle in hay`. -/
def containsSub (needle : Str) : Str → Bool
  | [] => decide (needle = [])
  | c :: rest => startsWith needle (c :: rest) || containsSub needle rest

/-- A parsed Gregorian date, the result of `datetime.strptime(s, "%Y-%m-%d")`. -/
structure PyDate where
  year : Nat
  month : Nat
  day : Nat
deriving DecidableEq

/-- Gregorian leap-year test (`datetime` semantics). -/
def isLeap (y : Nat) : Bool := (y % 4 = 0 && y % 100 ≠ 0) || y % 400 = 0

/-- Days in a month (`datetime` semantics). -/
def daysInMonth (y m : Nat) : Nat :=
  if m = 2 then (if isLeap y then 29 else 28)
  else if m = 4 ∨ m = 6 ∨ m = 9 ∨ m = 11 then 30
  else 31

/-- Numeric value of a digit string. -/
def natVal (s : Str) : Nat := s.foldl (fun a c => a * 10 + (c.toNat - '0'.toNat)) 0

/-- Model of CPython `datetime.strptime(s, "%Y-%m-%d")`: `%Y` matches exactly
four digits, `%m` matches one or two digits valued 1..12, `%d` matches one or
two digits valued 1..31, nothing may remain, and the resulting triple must be
a real calendar date with year at least 1 (else `ValueError`, modelled as
`none` because every caller catches it). -/
def strpDate (s : Str) : Option PyDate :=
  match s.splitOn '-' with
  | [y, mo, d] =>
    if y.length = 4 ∧ y.all Char.isDigit ∧
       1 ≤ mo.length ∧ mo.length ≤ 2 ∧ mo.all Char.isDigit ∧
       1 ≤ d.length ∧ d.length ≤ 2 ∧ d.all Char.isDigit then
      let yv := natVal y
      let mv := natVal mo
      let dv := natVal d
      if 1 ≤ yv ∧ 1 ≤ mv ∧ mv ≤ 12 ∧ 1 ≤ dv ∧ dv ≤ daysInMonth yv mv then
        some ⟨yv, mv, dv⟩
      else none
    else none
  | _ => none

/-- A component set: the insertion-ordered dict built by
`DateComponentExtractor.extract_date_components`. -/
abbrev Components := List (String × Str)

/-- Embedding of `DateComponentExtractor.extract_date_components`
(component_extractor.py lines 12-82).  A missing or falsy date string and an
unparseable date yield the empty dict.  Building the dict literal evaluates
`f"{year}"[0] .. f"{year}"[3]` for components `Y_1..Y_4`; when `str(year)`
has fewer than four characters (year below 1000) Python raises `IndexError`,
modelled by the explicit length guard.  Day and month are 1..31 and 1..12, so
their padded forms always have exactly two characters and their indexings
never fail. -/
def extract_date_components (dateStr : Option Str) : Except PyError Components :=
  match dateStr with
  | none => .ok []
  | some ds =>
    if ds = [] then .ok [] else
    match strpDate ds with
    | none => .ok []
    | some dt =>
      let dS := pad2 dt.day
      let moS := pad2 dt.month
      let yS := natStr dt.year
      let yy := pad2 (dt.year % 100)
      if yS.length < 4 then .error .indexError
      else .ok [
        ("D", dS), ("D_nz", natStr dt.day), ("M", moS), ("M_nz", natStr dt.month),
        ("YY", yy), ("YYYY", yS), ("YY_1", pad2 (dt.year / 100)), ("YY_2", yy),
        ("D_rev", dS.reverse), ("M_rev", moS.reverse), ("YY_rev", yy.reverse),
        ("YYYY_rev", yS.reverse),
        ("D_1", [charAt dS 0]), ("D_2", [charAt dS 1]),
        ("M_1", [charAt moS 0]), ("M_2", [charAt moS 1]),
        ("Y_1", [charAt yS 0]), ("Y_2", [charAt yS 1]),
        ("Y_3", [charAt yS 2]), ("Y_4", [charAt yS 3]),
        ("FULL_REV", (yS ++ moS ++ dS).reverse),
        ("DD", dS ++ dS), ("MD", moS ++ dS), ("DM", dS ++ moS),
        ("YMD", yy ++ moS ++ dS), ("MDY", moS ++ dS ++ yy),
        ("YYDD", yy ++ dS), ("DDAY", dS ++ yy),
        ("RAW_DATE", ds) ]

/-- Embedding of `DateComponentExtractor.extract_components_by_length`
(component_extractor.py lines 180-205): every component value whose length is
exactly `n`, followed by every length-`n` sliding-window substring of every
longer component value, in dict insertion order. -/
def extract_components_by_length (comps : Components) (n : Nat) : List Str :=
  (comps.filterMap fun e => if e.2.length = n then some e.2 else none) ++
  (comps.flatMap fun e =>
    if n < e.2.length then
      (List.range (e.2.length - n + 1)).map fun i => (e.2.drop i).take n
    else [])

/-- The fixed 4-digit template library (component_extractor.py lines 104-117). -/
def pattern_templates4 : List (List String) :=
  [["D", "M"], ["M", "D"], ["YY", "M"], ["M", "YY"], ["YY", "D"], ["D", "YY"],
   ["YY_1", "YY_2"], ["D", "D"], ["M", "M"], ["D_rev", "M_rev"],
   ["YY_rev", "D_rev"], ["YY"]]

/-- The fixed 6-digit template library (component_extractor.py lines 120-138). -/
def pattern_templates6 : List (List String) :=
  [["D", "M", "YY"], ["M", "D", "YY"], ["YY", "M", "D"], ["D", "YY", "M"],
   ["M", "YY", "D"], ["YY", "D", "M"], ["YYYY", "D"], ["YYYY", "M"],
   ["D", "D", "D"], ["M", "M", "M"], ["D", "M", "D"], ["M", "D", "M"],
   ["YMD"], ["MDY"], ["DD", "YY"], ["YY", "DD"], ["FULL_REV"]]

/-- Join the component values named by a template; `none` when a name is
absent (the source's bare `except: continue`). -/
def joinComps (comps : Components) : List String → Option Str
  | [] => some []
  | n :: rest =>
    match alookup comps n, joinComps comps rest with
    | some v, some r => some (v ++ r)
    | _, _ => none

/-- One step of the template loop in `extract_date_patterns`: keep the joined
pattern only at the target length, and also keep its reversal unless the
template mentions `FULL_REV` (component_extractor.py lines 141-155). -/
def templateStep (comps : Components) (pl : Nat) (acc : List Str)
    (t : List String) : List Str :=
  match joinComps comps t with
  | none => acc
  | some pat =>
    if pat.length = pl then
      acc ++ [pat] ++ (if "FULL_REV" ∈ t then [] else [pat.reverse])
    else acc

/-- The extra repetition patterns appended after the template loop
(component_extractor.py lines 157-175). -/
def repetitionPatterns (comps : Components) (pl : Nat) : List Str :=
  if pl = 4 then
    let day := (alookup comps "D").getD []
    if day.length = 2 then [day ++ day] else []
  else if pl = 6 then
    let day := (alookup comps "D").getD []
    let first := if day.length = 2 then [day ++ day ++ day] else []
    let month := (alookup comps "M").getD []
    first ++ (if month.length = 2 ∧ day.length = 2 then
      [month ++ day ++ month, day ++ month ++ day] else [])
  else []

/-- Embedding of `DateComponentExtractor.extract_date_patterns`
(component_extractor.py lines 84-178).  When the PIN length is neither 4 nor
6 the local `pattern_templates` is unbound and Python raises `NameError`.
The final `list(set(patterns))` is modelled as first-occurrence dedup. -/
def extract_date_patterns (ds : Str) (pl : Nat) : Except PyError (List Str) :=
  match extract_date_components (some ds) with
  | .error e => .error e
  | .ok comps =>
    if comps = [] then .ok [] else
    if pl = 4 then
      .ok (pySet ((pattern_templates4.foldl (templateStep comps pl) []) ++
        repetitionPatterns comps pl))
    else if pl = 6 then
      .ok (pySet ((pattern_templates6.foldl (templateStep comps pl) []) ++
        repetitionPatterns comps pl))
    else .error .nameError

/-- Demographics dictionary: the three optional date fields.  A field holding
Python's empty string is `some []` and is falsy wherever the source tests
truthiness. -/
structure DemoRec where
  dob : Option Str
  spouse_dob : Option Str
  anniversary : Option Str
deriving DecidableEq

/-- Python truthiness filter for an optional string field: absent and empty
collapse to `none`. -/
def getTruthy : Option Str → Option Str
  | some (c :: cs) => some (c :: cs)
  | _ => none

/-- Embedding of `SpecialPatternDetector.check_direct_special_cases`
(special_patterns.py lines 21-41): two exact literal PIN/date overrides; the
second is an `elif`. -/
def check_direct_special_cases (pin : Str) (d : DemoRec) : List Reason :=
  if pin = "402570".toList ∧ d.dob = some "2004-07-25".toList then
    [.DEMOGRAPHIC_DOB_SELF]
  else if pin = "100589".toList ∧ d.anniversary = some "1998-05-01".toList then
    [.DEMOGRAPHIC_ANNIVERSARY]
  else []

/-- The generator's output artifact: candidate PIN keys mapped to the list of
reasons recorded for them, in insertion order. -/
abbrev PinMap := List (Str × List Reason)

/-- Reasons recorded for a PIN key (empty when the key is absent). -/
def reasonsOf (m : PinMap) (p : Str) : List Reason := (alookup m p).getD []

/-- Python `if pin not in pin_reasons: pin_reasons[pin] = []`. -/
def ensureKey (m : PinMap) (p : Str) : PinMap :=
  if (alookup m p).isSome then m else m ++ [(p, [])]

/-- Apply `f` to the reason list stored under `p`. -/
def updateKey (m : PinMap) (p : Str) (f : List Reason → List Reason) : PinMap :=
  m.map fun e => if e.1 = p then (e.1, f e.2) else e

/-- Python `pin_reasons[pin].append(r)` preceded by key creation — the plain
append used by all hand-coded pattern generators (no duplicate check). -/
def pyAppend (m : PinMap) (p : Str) (r : Reason) : PinMap :=
  updateKey (ensureKey m p) p (fun rs => rs ++ [r])

/-- One duplicate-checked reason insertion, as in
`_generate_pins_from_components` (pattern_generator.py lines 194-197). -/
def addOneDedup (m : PinMap) (p : Str) (r : Reason) : PinMap :=
  updateKey m p (fun rs => if r ∈ rs then rs else rs ++ [r])

/-- Key creation followed by duplicate-checked insertion of every reason, as
in `_generate_pins_from_components` (pattern_generator.py lines 189-197). -/
def addReasonsDedup (m : PinMap) (p : Str) (rs : List Reason) : PinMap :=
  rs.foldl (fun acc r => addOneDedup acc p r) (ensureKey m p)

/-- One demographic source kept by `generate_all_combinations`: its reason
code plus its extracted components (pattern_generator.py lines 47-56). -/
structure SrcComp where
  reason : Reason
  comps : Components
deriving DecidableEq

/-- One entry of the `source_components` dict: present when the field is
supplied, truthy and extracts a non-empty component dict; extraction errors
propagate. -/
def srcEntry (v : Option Str) (r : Reason) : Except PyError (List SrcComp) :=
  match getTruthy v with
  | none => .ok []
  | some ds =>
    match extract_date_components (some ds) with
    | .error e => .error e
    | .ok cs => .ok (if cs = [] then [] else [⟨r, cs⟩])

/-- The `source_components` dict of `generate_all_combinations`
(pattern_generator.py lines 47-56), in the fixed dob, spouse_dob,
anniversary order. -/
def sourceComponentsOf (d : DemoRec) : Except PyError (List SrcComp) :=
  match srcEntry d.dob .DEMOGRAPHIC_DOB_SELF with
  | .error e => .error e
  | .ok s1 =>
    match srcEntry d.spouse_dob .DEMOGRAPHIC_DOB_SPOUSE with
    | .error e => .error e
    | .ok s2 =>
      match srcEntry d.anniversary .DEMOGRAPHIC_ANNIVERSARY with
      | .error e => .error e
      | .ok s3 => .ok (s1 ++ s2 ++ s3)

/-- `itertools.product(xs, repeat = n)`: ordered tuples, first position
slowest. -/
def productRepeat {α : Type} (xs : List α) : Nat → List (List α)
  | 0 => [[]]
  | n + 1 => xs.flatMap fun x => (productRepeat xs n).map (x :: ·)

/-- `itertools.product(*sets)`: Cartesian product of a list of lists, first
position slowest. -/
def listProd {α : Type} : List (List α) → List (List α)
  | [] => [[]]
  | s :: ss => s.flatMap fun x => (listProd ss).map (x :: ·)

/-- The enumeration loop of `_generate_pins_from_components`
(pattern_generator.py lines 179-197): `k` is the running `combo_count`,
incremented before the budget check; crossing the budget `b` abandons the
remaining tuples; a concatenation is stored (with duplicate-checked reasons)
only at the exact PIN length. -/
def pinsGo (pl b : Nat) (rs : List Reason) : Nat → List (List Str) → PinMap → PinMap
  | _, [], m => m
  | k, parts :: rest, m =>
    if k + 1 > b then m
    else
      pinsGo pl b rs (k + 1) rest
        (if parts.flatten.length = pl then addReasonsDedup m parts.flatten rs else m)

/-- Embedding of `_generate_pins_from_components` (pattern_generator.py
lines 151-197): skip when any component set is empty; truncate every set to
its first 20 entries when the potential product size exceeds 5000; then run
the budgeted enumeration.  The wall-clock cutoff is modelled out and the
fresh local `combo_count` starts at 0, as in the source where the counter is
passed by value. -/
def generate_pins_from_components (pl b : Nat) (sets : List (List Str))
    (rs : List Reason) (m : PinMap) : PinMap :=
  if sets.any List.isEmpty then m
  else
    let potential := sets.foldl (fun a s => a * s.length) 1
    let sets2 := if potential > 5000 then sets.map (·.take 20) else sets
    pinsGo pl b rs 0 (listProd sets2) m

/-- The source-tuple loop of `_generate_n_digit_combinations`
(pattern_generator.py lines 122-147).  The outer budget check compares the
never-incremented outer `combo_count` (always 0) against the budget and so
never fires for a natural-number budget; it is modelled as absent. -/
def sweepTuples (pl b : Nat) (parts : List Nat) :
    List (List SrcComp) → PinMap → PinMap
  | [], m => m
  | t :: rest, m =>
    sweepTuples pl b parts rest
      (generate_pins_from_components pl b
        ((t.zip parts).map fun pr => extract_components_by_length pr.1.comps pr.2)
        (t.map SrcComp.reason) m)

/-- Embedding of `_generate_n_digit_combinations` (pattern_generator.py
lines 94-149): reject partitions not summing to the PIN length, then sweep
every ordered source tuple (sources repeat). -/
def generate_n_digit_combinations (pl b : Nat) (srcs : List SrcComp)
    (parts : List Nat) (m : PinMap) : PinMap :=
  if parts.foldl (· + ·) 0 ≠ pl then m
  else sweepTuples pl b parts (productRepeat srcs parts.length) m

/-- Unordered source pairs in nested-loop order (`for i, s1 ...: for j, s2 in
enumerate(keys[i+1:], i+1)`). -/
def pairsOf {α : Type} : List α → List (α × α)
  | [] => []
  | a :: as => (as.map (a, ·)) ++ pairsOf as

/-- Conditional run of plain reason appends for one candidate PIN. -/
def condAppends (c : Prop) [Decidable c] (pin : Str) (rs : List Reason)
    (m : PinMap) : PinMap :=
  if c then rs.foldl (fun acc r => pyAppend acc pin r) m else m

/-- The per-pair writes of `_generate_special_patterns_4digit`
(pattern_generator.py lines 239-317): day pairs both ways, month pairs both
ways, year-combination forms, and the two literal overrides tied to a
DOB_SELF raw date containing `"2004"`. -/
def pairWrites4 (pl : Nat) (s1 s2 : SrcComp) (m0 : PinMap) : PinMap :=
  let c1 := s1.comps
  let c2 := s2.comps
  let m1 :=
    match alookup c1 "D", alookup c2 "D" with
    | some day1, some day2 =>
      condAppends ((day2 ++ day1).length = pl) (day2 ++ day1) [s1.reason, s2.reason]
        (condAppends ((day1 ++ day2).length = pl) (day1 ++ day2) [s1.reason, s2.reason] m0)
    | _, _ => m0
  let m2 :=
    match alookup c1 "M", alookup c2 "M" with
    | some mo1, some mo2 =>
      condAppends ((mo2 ++ mo1).length = pl) (mo2 ++ mo1) [s1.reason, s2.reason]
        (condAppends ((mo1 ++ mo2).length = pl) (mo1 ++ mo2) [s1.reason, s2.reason] m1)
    | _, _ => m1
  match alookup c1 "YY", alookup c2 "YY" with
  | some y1, some y2 =>
    let m3 := condAppends ((y1 ++ y2.take 2).length = pl) (y1 ++ y2.take 2)
      [s1.reason, s2.reason] m2
    let m4 := condAppends ((y1.reverse ++ y2.take 2).length = pl)
      (y1.reverse ++ y2.take 2) [s1.reason, s2.reason] m3
    if s1.reason = .DEMOGRAPHIC_DOB_SELF ∧
        containsSub "2004".toList ((alookup c1 "RAW_DATE").getD []) then
      condAppends (("9804".toList).length = pl) "9804".toList [s1.reason, s2.reason]
        (condAppends (("0098".toList).length = pl) "0098".toList [s1.reason] m4)
    else m4
  | _, _ => m2

/-- Embedding of `_generate_special_patterns_4digit` (pattern_generator.py
lines 223-317): per-source day repetition (written without a length guard),
then the pair writes. -/
def special_patterns_4digit (pl : Nat) (srcs : List SrcComp) (m0 : PinMap) : PinMap :=
  let m1 := srcs.foldl (fun m sc =>
    match alookup sc.comps "D" with
    | some day => if day.length = 2 then pyAppend m (day ++ day) sc.reason else m
    | none => m) m0
  (pairsOf srcs).foldl (fun m pr => pairWrites4 pl pr.1 pr.2 m) m1

/-- The per-pair writes of `_generate_special_patterns_6digit`
(pattern_generator.py lines 346-389). -/
def pairWrites6 (pl : Nat) (s1 s2 : SrcComp) (m0 : PinMap) : PinMap :=
  let c1 := s1.comps
  let c2 := s2.comps
  let m1 :=
    if (alookup c1 "M").isSome ∧ (alookup c1 "D").isSome ∧
       (alookup c2 "M").isSome ∧ (alookup c2 "D").isSome then
      let md1 := (alookup c1 "MD").getD []
      let md2 := (alookup c2 "MD").getD []
      if md1.length = 4 ∧ md2.length = 4 then
        condAppends ((md1.take 2 ++ md2).length = pl) (md1.take 2 ++ md2)
          [s1.reason, s2.reason] m0
      else m0
    else m0
  let m2 :=
    if (alookup c1 "YY").isSome ∧ (alookup c2 "MD").isSome then
      let year := (alookup c1 "YY").getD []
      let md := (alookup c2 "MD").getD []
      if year.length = 2 ∧ md.length = 4 then
        condAppends ((year ++ md).length = pl) (year ++ md) [s1.reason, s2.reason] m1
      else m1
    else m1
  match alookup c1 "D", alookup c2 "D" with
  | some day1, some day2 =>
    if day1.length = 2 ∧ day2.length = 2 then
      condAppends ((day1 ++ day2 ++ day1).length = pl) (day1 ++ day2 ++ day1)
        [s1.reason, s2.reason] m2
    else m2
  | _, _ => m2

/-- Embedding of `_generate_special_patterns_6digit` (pattern_generator.py
lines 319-389): day-repeated-thrice per source (no length guard), the first
`pin_length` characters of `FULL_REV` per source, then the pair writes. -/
def special_patterns_6digit (pl : Nat) (srcs : List SrcComp) (m0 : PinMap) : PinMap :=
  let m1 := srcs.foldl (fun m sc =>
    match alookup sc.comps "D" with
    | some day => if day.length = 2 then pyAppend m (day ++ day ++ day) sc.reason else m
    | none => m) m0
  let m2 := srcs.foldl (fun m sc =>
    match alookup sc.comps "FULL_REV" with
    | some fr => if pl ≤ fr.length then pyAppend m (fr.take pl) sc.reason else m
    | none => m) m1
  (pairsOf srcs).foldl (fun m pr => pairWrites6 pl pr.1 pr.2 m) m2

/-- First source carrying a given reason code (`next(..., None)` over the
source keys). -/
def findSource (srcs : List SrcComp) (r : Reason) : Option SrcComp :=
  srcs.find? fun sc => decide (sc.reason = r)

/-- Embedding of `_generate_cross_source_patterns` (pattern_generator.py
lines 391-477): four hand-coded three-source rules, each guarded by an exact
length check; rule 1 pads a 4-character candidate with `"00"` when the target
length is 6.  The source's `try/except` wrappers never fire in the model
because every lookup is defaulted. -/
def cross_source_patterns (pl : Nat) (srcs : List SrcComp) (m0 : PinMap) : PinMap :=
  if srcs.length < 2 then m0
  else if 3 ≤ srcs.length then
    match findSource srcs .DEMOGRAPHIC_DOB_SELF,
          findSource srcs .DEMOGRAPHIC_DOB_SPOUSE,
          findSource srcs .DEMOGRAPHIC_ANNIVERSARY with
    | some dobS, some spouseS, some wedS =>
      let m1 :=
        let spouse_year := (alookup spouseS.comps "YY").getD []
        let wedding_day := (alookup wedS.comps "D").getD []
        if spouse_year ≠ [] ∧ wedding_day ≠ [] then
          let pin0 := spouse_year.reverse ++ wedding_day
          let pin := if pin0.length = 4 ∧ pl = 6 then pin0 ++ "00".toList else pin0
          condAppends (pin.length = pl) pin [spouseS.reason, wedS.reason] m0
        else m0
      let m2 :=
        let dob_day := (alookup dobS.comps "D").getD []
        let spouse_day := (alookup spouseS.comps "D").getD []
        let wedding_day := (alookup wedS.comps "D").getD []
        if dob_day ≠ [] ∧ spouse_day ≠ [] ∧ wedding_day ≠ [] then
          let pin := dob_day ++ spouse_day ++ wedding_day.take 2
          condAppends (pin.length = pl) pin [dobS.reason, spouseS.reason, wedS.reason] m1
        else m1
      let m3 :=
        let dob_month := (alookup dobS.comps "M").getD []
        let spouse_month := (alookup spouseS.comps "M").getD []
        let wedding_month := (alookup wedS.comps "M").getD []
        if dob_month ≠ [] ∧ spouse_month ≠ [] ∧ wedding_month ≠ [] then
          let pin := dob_month ++ spouse_month ++ wedding_month
          condAppends (pin.length = pl) pin [dobS.reason, spouseS.reason, wedS.reason] m2
        else m2
      let wedding_year := (alookup wedS.comps "YY").getD []
      let dob_day := (alookup dobS.comps "D").getD []
      let spouse_day := (alookup spouseS.comps "D").getD []
      if wedding_year ≠ [] ∧ dob_day ≠ [] ∧ spouse_day ≠ [] then
        let pin := wedding_year ++ dob_day ++ spouse_day
        condAppends (pin.length = pl) pin [dobS.reason, spouseS.reason, wedS.reason] m3
      else m3
    | _, _, _ => m0
  else m0

/-- Embedding of `_generate_day_repetition_patterns` (pattern_generator.py
lines 479-513): per-source day repetition, plus day‖year‖day for length 6. -/
def day_repetition_patterns (pl : Nat) (srcs : List SrcComp) (m0 : PinMap) : PinMap :=
  srcs.foldl (fun m sc =>
    match alookup sc.comps "D" with
    | some day =>
      if day.length = 2 then
        if pl = 4 then pyAppend m (day ++ day) sc.reason
        else if pl = 6 then
          let m1 := pyAppend m (day ++ day ++ day) sc.reason
          match alookup sc.comps "YY" with
          | some year =>
            condAppends ((day ++ year ++ day).length = pl) (day ++ year ++ day)
              [sc.reason] m1
          | none => m1
        else m
      else m
    | none => m) m0

/-- Embedding of `_check_special_cases` (pattern_generator.py lines 199-221):
the two literal PINs tied to raw dates containing `"1998-05-01"` or
`"2004-07-25"`. -/
def check_special_cases (pl : Nat) (srcs : List SrcComp) (m0 : PinMap) : PinMap :=
  let m1 := srcs.foldl (fun m sc =>
    if sc.reason = .DEMOGRAPHIC_ANNIVERSARY ∧
        containsSub "1998-05-01".toList ((alookup sc.comps "RAW_DATE").getD []) then
      condAppends (("100589".toList).length = pl) "100589".toList [sc.reason] m
    else m) m0
  srcs.foldl (fun m sc =>
    if sc.reason = .DEMOGRAPHIC_DOB_SELF ∧
        containsSub "2004-07-25".toList ((alookup sc.comps "RAW_DATE").getD []) then
      condAppends (("402570".toList).length = pl) "402570".toList [sc.reason] m
    else m) m1

/-- The length-4 generation pipeline (pattern_generator.py lines 67-72). -/
def genPipeline4 (pl b : Nat) (srcs : List SrcComp) : PinMap :=
  special_patterns_4digit pl srcs
    (generate_n_digit_combinations pl b srcs [2, 2] [])

/-- The length-6 generation pipeline (pattern_generator.py lines 74-90). -/
def genPipeline6 (pl b : Nat) (srcs : List SrcComp) : PinMap :=
  check_special_cases pl srcs
    (day_repetition_patterns pl srcs
      (cross_source_patterns pl srcs
        (special_patterns_6digit pl srcs
          (generate_n_digit_combinations pl b srcs [4, 2]
            (generate_n_digit_combinations pl b srcs [2, 4]
              (generate_n_digit_combinations pl b srcs [2, 2, 2] []))))))

/-- Embedding of `PatternGenerator.generate_all_combinations`
(pattern_generator.py lines 27-92), parameterized by the configured PIN
length `pl` and combination budget `b`. -/
def generate_all_combinations (pl b : Nat) (d : DemoRec) : Except PyError PinMap :=
  match sourceComponentsOf d with
  | .error e => .error e
  | .ok srcs =>
    if srcs = [] then .ok []
    else if pl = 4 then .ok (genPipeline4 pl b srcs)
    else if pl = 6 then .ok (genPipeline6 pl b srcs)
    else .ok []

/-- One iteration of the direct single-date loop in
`check_demographic_matches` (validator_core.py lines 90-99): a truthy date
field contributes its reason code when the PIN is among that date's direct
patterns. -/
def matchSource (pl : Nat) (pin : Str) (v : Option Str) (r : Reason) :
    Except PyError (List Reason) :=
  match getTruthy v with
  | none => .ok []
  | some ds =>
    match extract_date_patterns ds pl with
    | .error e => .error e
    | .ok pats => .ok (if pin ∈ pats then [r] else [])

/-- The direct single-date pattern matches collected by the first loop of
`check_demographic_matches` (validator_core.py lines 89-99). -/
def directMatches (pl : Nat) (pin : Str) (d : DemoRec) :
    Except PyError (List Reason) :=
  match matchSource pl pin d.dob .DEMOGRAPHIC_DOB_SELF with
  | .error e => .error e
  | .ok r1 =>
    match matchSource pl pin d.spouse_dob .DEMOGRAPHIC_DOB_SPOUSE with
    | .error e => .error e
    | .ok r2 =>
      match matchSource pl pin d.anniversary .DEMOGRAPHIC_ANNIVERSARY with
      | .error e => .error e
      | .ok r3 => .ok (r1 ++ r2 ++ r3)

/-- Embedding of `MPINValidator.check_demographic_matches`
(validator_core.py lines 73-116), instrumented with a flag recording whether
the full combinatorial generator was invoked: direct matches first, then the
special-case table (whose hit returns immediately), then — only when both
came up empty — the generator fallback. -/
def check_demographic_matchesT (pl b : Nat) (pin : Str) (d : DemoRec) :
    Except PyError (List Reason × Bool) :=
  match directMatches pl pin d with
  | .error e => .error e
  | .ok direct =>
    let special := check_direct_special_cases pin d
    if special ≠ [] then .ok (pySet (direct ++ special), false)
    else if direct = [] then
      match generate_all_combinations pl b d with
      | .error e => .error e
      | .ok m => .ok (pySet (direct ++ reasonsOf m pin), true)
    else .ok (pySet direct, false)

/-- `MPINValidator.check_demographic_matches` proper: the reasons component
of the instrumented embedding. -/
def check_demographic_matches (pl b : Nat) (pin : Str) (d : DemoRec) :
    Except PyError (List Reason) :=
  match check_demographic_matchesT pl b pin d with
  | .error e => .error e
  | .ok td => .ok td.1

/-- Embedding of `MPINValidator.validate_pin_format` (validator_core.py
lines 40-59): non-empty, exact length, all decimal digits. -/
def validate_pin_format (pl : Nat) (pin : Str) : Bool :=
  if pin = [] then false
  else if pin.length ≠ pl then false
  else pin.all Char.isDigit

/-- Embedding of `MPINValidator.is_common_pin` (validator_core.py lines
61-71) over the externally supplied common-PIN table. -/
def is_common_pin (common : List Str) (pin : Str) : Bool := decide (pin ∈ common)

/-- Embedding of `MPINValidator.get_weakness_reasons` (validator_core.py
lines 118-140).  `demo = none` stands for Python `None` and for the falsy
empty dict; a present record is a truthy dict. -/
def get_weakness_reasons (pl b : Nat) (common : List Str) (pin : Str)
    (demo : Option DemoRec) : Except PyError (List Reason) :=
  let base := if is_common_pin common pin then [Reason.COMMONLY_USED] else []
  match demo with
  | none => .ok (pySet base)
  | some d =>
    match check_demographic_matches pl b pin d with
    | .error e => .error e
    | .ok dr => .ok (pySet (base ++ dr))

/-- The validation verdict record returned by `validate_pin`. -/
structure Verdict where
  pin : Str
  pin_length : Nat
  strength : String
  weakness_reasons : List Reason
deriving DecidableEq

/-- Embedding of `MPINValidator.validate_pin` (validator_core.py lines
156-182): reject malformed PINs with `ValueError`, otherwise report strength
`WEAK` exactly when the reason set is non-empty. -/
def validate_pin (pl b : Nat) (common : List Str) (pin : Str)
    (demo : Option DemoRec) : Except PyError Verdict :=
  if validate_pin_format pl pin then
    match get_weakness_reasons pl b common pin demo with
    | .error e => .error e
    | .ok rs => .ok ⟨pin, pl, if rs = [] then "STRONG" else "WEAK", rs⟩
  else .error .valueError

/-- The validator instance state fixed by `MPINValidator.__init__`
(validator_core.py lines 17-38). -/
structure MPINValidator where
  pin_length : Nat
  common_pins : List Str
  max_combinations : Nat
deriving DecidableEq

/-- Embedding of `MPINValidator.__init__` (validator_core.py lines 17-38):
`ValueError` unless the requested length is 4 or 6; otherwise the instance
fixes its PIN length, loads the external common-PIN table for that length
(`get_common_pins` is the external lookup of spec section 6, passed in as
`table`), and sets the default combination budget. -/
def mkMPINValidator (table : Nat → List Str) (pl : Int) : Except PyError MPINValidator :=
  if pl = 4 ∨ pl = 6 then .ok ⟨pl.toNat, table pl.toNat, 500000⟩
  else .error .valueError

/-- `validate_pin` as invoked on a constructed instance, using the state
fixed at construction time. -/
def MPINValidator.validate (v : MPINValidator) (pin : Str) (demo : Option DemoRec) :
    Except PyError Verdict :=
  validate_pin v.pin_length v.max_combinations v.common_pins pin demo

/-! ### Membership infrastructure for `pySet`, `alookup` and the PinMap writes -/

theorem mem_dedupAux {α : Type} [DecidableEq α] (a : α) :
    ∀ (l seen : List α), a ∈ dedupAux seen l ↔ a ∈ l ∧ a ∉ seen := by
  intro l
  induction l with
  | nil => intro seen; simp [dedupAux]
  | cons x xs ih =>
    intro seen
    by_cases hx : x ∈ seen
    · rw [dedupAux, if_pos hx, ih]
      constructor
      · rintro ⟨h1, h2⟩; exact ⟨List.mem_cons_of_mem _ h1, h2⟩
      · rintro ⟨h1, h2⟩
        rcases List.mem_cons.mp h1 with h | h
        · exact absurd (h ▸ hx) h2
        · exact ⟨h, h2⟩
    · rw [dedupAux, if_neg hx]
      constructor
      · intro h
        rcases List.mem_cons.mp h with h | h
        · exact ⟨h ▸ List.mem_cons_self x xs, h ▸ hx⟩
        · rcases (ih _).mp h with ⟨h1, h2⟩
          refine ⟨List.mem_cons_of_mem _ h1, fun hs => h2 (List.mem_cons_of_mem _ hs)⟩
      · rintro ⟨h1, h2⟩
        rcases List.mem_cons.mp h1 with h | h
        · exact h ▸ List.mem_cons_self _ _
        · by_cases hax : a = x
          · exact hax ▸ List.mem_cons_self _ _
          · exact List.mem_cons_of_mem _ ((ih _).mpr
              ⟨h, fun hs => (List.mem_cons.mp hs).elim hax h2⟩)

theorem mem_pySet {α : Type} [DecidableEq α] (a : α) (l : List α) :
    a ∈ pySet l ↔ a ∈ l := by
  rw [pySet, mem_dedupAux]; simp

theorem alookup_append {α β : Type} [DecidableEq α] (m1 m2 : List (α × β)) (k : α) :
    alookup (m1 ++ m2) k =
      match alookup m1 k with
      | some v => some v
      | none => alookup m2 k := by
  induction m1 with
  | nil => simp [alookup]
  | cons e rest ih =>
    rw [List.cons_append, alookup, alookup]
    split
    · rfl
    · exact ih

theorem alookup_updateKey_self (m : PinMap) (p : Str) (f : List Reason → List Reason) :
    alookup (updateKey m p f) p = (alookup m p).map f := by
  induction m with
  | nil => simp [updateKey, alookup]
  | cons e rest ih =>
    rw [updateKey, List.map_cons]
    by_cases h : e.1 = p
    · rw [if_pos h, alookup, if_pos h, alookup, if_pos h]
      rfl
    · rw [if_neg h, alookup, if_neg h, alookup, if_neg h]
      exact ih

theorem alookup_updateKey_ne (m : PinMap) {p q : Str} (hne : p ≠ q)
    (f : List Reason → List Reason) :
    alookup (updateKey m q f) p = alookup m p := by
  induction m with
  | nil => simp [updateKey, alookup]
  | cons e rest ih =>
    rw [updateKey, List.map_cons]
    by_cases h : e.1 = q
    · rw [if_pos h, alookup, alookup]
      have : ¬ e.1 = p := fun hc => hne (hc ▸ h ▸ rfl)
      rw [if_neg this, if_neg this]
      exact ih
    · rw [if_neg h, alookup, alookup]
      split
      · rfl
      · exact ih

theorem alookup_ensureKey_self (m : PinMap) (p : Str) :
    alookup (ensureKey m p) p = some (reasonsOf m p) := by
  rw [ensureKey]
  split
  · rename_i h
    rcases Option.isSome_iff_exists.mp h with ⟨v, hv⟩
    rw [hv, reasonsOf, hv]; rfl
  · rename_i h
    rw [alookup_append]
    have hn : alookup m p = none := Option.not_isSome_iff_eq_none.mp h
    rw [hn, reasonsOf, hn]
    simp [alookup]

theorem alookup_ensureKey_ne (m : PinMap) {p q : Str} (hne : p ≠ q) :
    alookup (ensureKey m q) p = alookup m p := by
  rw [ensureKey]
  split
  · rfl
  · rw [alookup_append]
    cases h : alookup m p with
    | some v => rfl
    | none =>
      have : ¬ q = p := fun hc => hne hc.symm
      simp [alookup, this]

theorem reasonsOf_pyAppend_self (m : PinMap) (p : Str) (r : Reason) :
    reasonsOf (pyAppend m p r) p = reasonsOf m p ++ [r] := by
  rw [pyAppend, reasonsOf, alookup_updateKey_self, alookup_ensureKey_self]
  rfl

theorem reasonsOf_pyAppend_ne (m : PinMap) {p q : Str} (hne : p ≠ q) (r : Reason) :
    reasonsOf (pyAppend m q r) p = reasonsOf m p := by
  rw [pyAppend, reasonsOf, alookup_updateKey_ne _ hne, alookup_ensureKey_ne _ hne, reasonsOf]

theorem mem_pyAppend_self (m : PinMap) (p : Str) (r : Reason) :
    r ∈ reasonsOf (pyAppend m p r) p := by
  rw [reasonsOf_pyAppend_self]; simp

theorem mem_pyAppend_mono {m : PinMap} {p : Str} {r : Reason}
    (h : r ∈ reasonsOf m p) (q : Str) (r' : Reason) :
    r ∈ reasonsOf (pyAppend m q r') p := by
  by_cases hq : p = q
  · subst hq; rw [reasonsOf_pyAppend_self]; exact List.mem_append_left _ h
  · rw [reasonsOf_pyAppend_ne _ hq]; exact h

theorem isSome_of_mem_reasonsOf {m : PinMap} {p : Str} {r : Reason}
    (h : r ∈ reasonsOf m p) : (alookup m p).isSome := by
  rw [reasonsOf] at h
  cases hm : alookup m p with
  | some v => rfl
  | none => rw [hm] at h; simp at h

theorem isSome_alookup_updateKey (m : PinMap) (p q : Str) (f : List Reason → List Reason) :
    (alookup (updateKey m q f) p).isSome = (alookup m p).isSome := by
  by_cases hq : p = q
  · subst hq; rw [alookup_updateKey_self]; cases alookup m p <;> rfl
  · rw [alookup_updateKey_ne _ hq]

theorem mem_addOneDedup_self {m : PinMap} {p : Str} (hk : (alookup m p).isSome)
    (r : Reason) : r ∈ reasonsOf (addOneDedup m p r) p := by
  rw [addOneDedup, reasonsOf, alookup_updateKey_self]
  rcases Option.isSome_iff_exists.mp hk with ⟨v, hv⟩
  rw [hv]
  by_cases h : r ∈ v <;> simp [h]

theorem mem_addOneDedup_mono {m : PinMap} {p : Str} {r : Reason}
    (h : r ∈ reasonsOf m p) (q : Str) (r' : Reason) :
    r ∈ reasonsOf (addOneDedup m q r') p := by
  by_cases hq : p = q
  · subst hq
    rw [addOneDedup, reasonsOf, alookup_updateKey_self]
    rcases Option.isSome_iff_exists.mp (isSome_of_mem_reasonsOf h) with ⟨v, hv⟩
    rw [hv]
    rw [reasonsOf, hv] at h
    by_cases hr : r' ∈ v
    · simp only [Option.map_some', Option.getD_some, if_pos hr]
      exact h
    · simp only [Option.map_some', Option.getD_some, if_neg hr]
      exact List.mem_append_left _ h
  · rw [addOneDedup, reasonsOf, alookup_updateKey_ne _ hq]
    exact h

theorem mem_ensureKey_mono {m : PinMap} {p : Str} {r : Reason}
    (h : r ∈ reasonsOf m p) (q : Str) : r ∈ reasonsOf (ensureKey m q) p := by
  by_cases hq : p = q
  · subst hq; rw [reasonsOf, alookup_ensureKey_self]; exact h
  · rw [reasonsOf, alookup_ensureKey_ne _ hq]; exact h

theorem mem_foldl_addOneDedup (p : Str) (r : Reason) :
    ∀ (rs : List Reason) (acc : PinMap), (alookup acc p).isSome →
      (r ∈ rs ∨ r ∈ reasonsOf acc p) →
      r ∈ reasonsOf (rs.foldl (fun a x => addOneDedup a p x) acc) p := by
  intro rs
  induction rs with
  | nil =>
    intro acc _ h
    rcases h with h | h
    · simp at h
    · simpa using h
  | cons x xs ih =>
    intro acc hk h
    rw [List.foldl_cons]
    have hk' : (alookup (addOneDedup acc p x) p).isSome := by
      rw [addOneDedup, isSome_alookup_updateKey]; exact hk
    rcases h with h | h
    · rcases List.mem_cons.mp h with h | h
      · exact ih _ hk' (Or.inr (h ▸ mem_addOneDedup_self hk x))
      · exact ih _ hk' (Or.inl h)
    · exact ih _ hk' (Or.inr (mem_addOneDedup_mono h p x))

theorem mem_addReasonsDedup_self {rs : List Reason} {r : Reason} (hr : r ∈ rs)
    (m : PinMap) (p : Str) : r ∈ reasonsOf (addReasonsDedup m p rs) p := by
  rw [addReasonsDedup]
  refine mem_foldl_addOneDedup p r rs _ ?_ (Or.inl hr)
  rw [alookup_ensureKey_self]; rfl

theorem mem_foldl_addOneDedup_mono {p : Str} {r : Reason} (q : Str) :
    ∀ (rs : List Reason) (acc : PinMap), r ∈ reasonsOf acc p →
      r ∈ reasonsOf (rs.foldl (fun a x => addOneDedup a q x) acc) p := by
  intro rs
  induction rs with
  | nil => intro acc h; simpa using h
  | cons x xs ih =>
    intro acc h
    rw [List.foldl_cons]
    exact ih _ (mem_addOneDedup_mono h q x)

theorem mem_addReasonsDedup_mono {m : PinMap} {p : Str} {r : Reason}
    (h : r ∈ reasonsOf m p) (q : Str) (rs : List Reason) :
    r ∈ reasonsOf (addReasonsDedup m q rs) p := by
  rw [addReasonsDedup]
  exact mem_foldl_addOneDedup_mono q rs _ (mem_ensureKey_mono h q)

theorem mem_foldl_pyAppend_mono {p : Str} {r : Reason} (pin : Str) :
    ∀ (rs : List Reason) (acc : PinMap), r ∈ reasonsOf acc p →
      r ∈ reasonsOf (rs.foldl (fun a x => pyAppend a pin x) acc) p := by
  intro rs
  induction rs with
  | nil => intro acc h; simpa using h
  | cons x xs ih =>
    intro acc h
    rw [List.foldl_cons]
    exact ih _ (mem_pyAppend_mono h pin x)

theorem mem_foldl_pyAppend_self {r : Reason} (pin : Str) :
    ∀ (rs : List Reason), r ∈ rs → ∀ (acc : PinMap),
      r ∈ reasonsOf (rs.foldl (fun a x => pyAppend a pin x) acc) pin := by
  intro rs
  induction rs with
  | nil => intro h; simp at h
  | cons x xs ih =>
    intro h acc
    rw [List.foldl_cons]
    rcases List.mem_cons.mp h with h | h
    · exact mem_foldl_pyAppend_mono pin xs _ (h ▸ mem_pyAppend_self acc pin x)
    · exact ih h _

theorem mem_condAppends_mono {m : PinMap} {p : Str} {r : Reason}
    (h : r ∈ reasonsOf m p) (c : Prop) [Decidable c] (pin : Str) (rs : List Reason) :
    r ∈ reasonsOf (condAppends c pin rs m) p := by
  rw [condAppends]
  split
  · exact mem_foldl_pyAppend_mono pin rs m h
  · exact h

theorem mem_condAppends_self {c : Prop} [Decidable c] (hc : c) {r : Reason}
    {rs : List Reason} (hr : r ∈ rs) (pin : Str) (m : PinMap) :
    r ∈ reasonsOf (condAppends c pin rs m) pin := by
  rw [condAppends, if_pos hc]
  exact mem_foldl_pyAppend_self pin rs hr m

theorem mem_pinsGo_mono (pl b : Nat) (rs : List Reason) {p : Str} {r : Reason} :
    ∀ (l : List (List Str)) (k : Nat) (m : PinMap), r ∈ reasonsOf m p →
      r ∈ reasonsOf (pinsGo pl b rs k l m) p := by
  intro l
  induction l with
  | nil => intro k m h; simpa [pinsGo] using h
  | cons x xs ih =>
    intro k m h
    rw [pinsGo]
    split
    · exact h
    · refine ih _ _ ?_
      split
      · exact mem_addReasonsDedup_mono h _ rs
      · exact h

theorem mem_pinsGo_self (pl b : Nat) {rs : List Reason} {r : Reason} (hr : r ∈ rs) :
    ∀ (l : List (List Str)) (k : Nat) (m : PinMap) (e : List Str),
      k + l.length ≤ b → e ∈ l → e.flatten.length = pl →
      r ∈ reasonsOf (pinsGo pl b rs k l m) e.flatten := by
  intro l
  induction l with
  | nil => intro k m e _ he; simp at he
  | cons x xs ih =>
    intro k m e hb he hlen
    rw [pinsGo]
    have hk1 : ¬ (k + 1 > b) := by
      rw [List.length_cons] at hb
      omega
    rw [if_neg hk1]
    rcases List.mem_cons.mp he with he | he
    · subst he
      rw [if_pos hlen]
      exact mem_pinsGo_mono pl b rs xs (k + 1) _ (mem_addReasonsDedup_self hr _ _)
    · refine ih (k + 1) _ e ?_ he hlen
      rw [List.length_cons] at hb
      omega

theorem mem_listProd_cons {α : Type} {x : α} {s : List α} {t : List α}
    {ss : List (List α)} (hx : x ∈ s) (ht : t ∈ listProd ss) :
    x :: t ∈ listProd (s :: ss) := by
  rw [listProd, List.mem_flatMap]
  exact ⟨x, hx, List.mem_map.mpr ⟨t, ht, rfl⟩⟩

/-! ### Claim theorems -/

theorem validate_pin_format_iff (pl : Nat) (pin : Str) :
    validate_pin_format pl pin = true ↔
      (pin ≠ [] ∧ pin.length = pl ∧ pin.all Char.isDigit = true) := by
  rw [validate_pin_format]
  by_cases h0 : pin = []
  · simp [h0]
  · rw [if_neg h0]
    by_cases h1 : pin.length = pl
    · simp [h0, h1]
    · simp [h0, h1]

/-- C4: the spec says `extract_date_components` never raises and returns the
full component mapping for every valid date, but for the valid ISO date
`0998-05-01` (which `strptime` parses, `%Y` matching the four digits `0998`)
Python evaluates `f"{year}"[3]` for component `Y_4` on the three-character
string `"998"` and raises `IndexError`. -/
theorem c4_extract_indexError_on_year_0998 :
    extract_date_components (some ("0998-05-01".toList)) = .error .indexError ∧
    strpDate ("0998-05-01".toList) = some ⟨998, 5, 1⟩ := by
  exact ⟨rfl, rfl⟩

/-- C9: `generate_all_combinations` propagates the extractor's `IndexError`
for a demographic date with a year below 1000, at the default budget, at a
tiny budget and at both supported PIN lengths — contradicting the claim that
it never raises for any demographics and any `maxCombinations`. -/
theorem c9_generate_indexError_on_year_0998 :
    generate_all_combinations 6 500000 ⟨some ("0998-05-01".toList), none, none⟩ =
      .error .indexError ∧
    generate_all_combinations 6 1 ⟨some ("0998-05-01".toList), none, none⟩ =
      .error .indexError ∧
    generate_all_combinations 4 500000 ⟨some ("0998-05-01".toList), none, none⟩ =
      .error .indexError := by
  exact ⟨rfl, rfl, rfl⟩

/-- C10: constructing `MPINValidator` raises `ValueError` exactly for PIN
lengths other than 4 and 6; a successful construction fixes the instance's
PIN length to the requested value, loads the external common-PIN table for
that length, and sets the default combination budget. -/
theorem c10_mk_validator_pin_length (table : Nat → List Str) (pl : Int) :
    (mkMPINValidator table pl = .error .valueError ↔ (pl ≠ 4 ∧ pl ≠ 6)) ∧
    (∀ v, mkMPINValidator table pl = .ok v →
      ((pl = 4 ∧ v.pin_length = 4) ∨ (pl = 6 ∧ v.pin_length = 6)) ∧
      v.common_pins = table v.pin_length ∧ v.max_combinations = 500000) := by
  constructor
  · by_cases h : pl = 4 ∨ pl = 6
    · rw [mkMPINValidator, if_pos h]
      constructor
      · intro hc; cases hc
      · rintro ⟨h4, h6⟩
        rcases h with h | h
        · exact absurd h h4
        · exact absurd h h6
    · rw [mkMPINValidator, if_neg h]
      push_neg at h
      simp [h]
  · intro v hv
    rw [mkMPINValidator] at hv
    split at hv
    · rename_i h
      rcases h with h | h
      · subst h
        cases hv
        exact ⟨Or.inl ⟨rfl, rfl⟩, rfl, rfl⟩
      · subst h
        cases hv
        exact ⟨Or.inr ⟨rfl, rfl⟩, rfl, rfl⟩
    · cases hv

/-- Witness for C10 at the concrete lengths 5 (rejected) and 4 (accepted). -/
theorem c10_mk_validator_witness :
    mkMPINValidator (fun _ => []) 5 = .error .valueError ∧
    (((5 : Int) ≠ 4 ∧ (5 : Int) ≠ 6) ∧
      ((⟨4, [], 500000⟩ : MPINValidator).pin_length = 4)) := by
  refine ⟨(c10_mk_validator_pin_length (fun _ => []) 5).1.mpr (by decide),
    (by decide), ?_⟩
  have h := ((c10_mk_validator_pin_length (fun _ => []) 4).2 ⟨4, [], 500000⟩ rfl).1
  rcases h with ⟨_, h⟩ | ⟨h4, _⟩
  · exact h
  · exact absurd h4 (by decide)

/-- C1: over any common-PIN table, a well-formed PIN that is in the table
validates (with no demographics) to strength WEAK with `COMMONLY_USED`
among its reasons, and a well-formed PIN not in the table validates to
strength STRONG with an empty reason list. -/
theorem c1_common_pin_soundness (pl b : Nat) (common : List Str) (pin : Str)
    (hfmt : validate_pin_format pl pin = true) :
    (pin ∈ common →
      validate_pin pl b common pin none =
        .ok ⟨pin, pl, "WEAK", [Reason.COMMONLY_USED]⟩) ∧
    (pin ∉ common →
      validate_pin pl b common pin none = .ok ⟨pin, pl, "STRONG", []⟩) := by
  constructor
  · intro hmem
    have hc : is_common_pin common pin = true := by
      rw [is_common_pin]; exact decide_eq_true hmem
    rw [validate_pin, if_pos hfmt, get_weakness_reasons, hc]
    rfl
  · intro hmem
    have hc : is_common_pin common pin = false := by
      rw [is_common_pin]; exact decide_eq_false hmem
    rw [validate_pin, if_pos hfmt, get_weakness_reasons, hc]
    rfl

/-- Witness for C1 with the table `{"1234"}`: member PIN `1234` is WEAK with
`COMMONLY_USED`, non-member PIN `5678` is STRONG with no reasons. -/
theorem c1_common_pin_witness :
    validate_pin 4 500000 ["1234".toList] ("1234".toList) none =
      .ok ⟨"1234".toList, 4, "WEAK", [Reason.COMMONLY_USED]⟩ ∧
    validate_pin 4 500000 ["1234".toList] ("5678".toList) none =
      .ok ⟨"5678".toList, 4, "STRONG", []⟩ := by
  exact ⟨(c1_common_pin_soundness 4 500000 ["1234".toList] ("1234".toList)
      (by decide)).1 (by decide),
    (c1_common_pin_soundness 4 500000 ["1234".toList] ("5678".toList)
      (by decide)).2 (by decide)⟩

/-! ### No component of the pipeline after the format check raises ValueError -/

theorem extract_no_valueError (x : Option Str) :
    extract_date_components x ≠ .error .valueError := by
  cases x with
  | none => simp [extract_date_components]
  | some ds =>
    rw [extract_date_components]
    split
    · simp
    · split
      · simp
      · dsimp only
        split
        · simp
        · simp

theorem patterns_no_valueError (ds : Str) (pl : Nat) :
    extract_date_patterns ds pl ≠ .error .valueError := by
  rw [extract_date_patterns]
  cases hx : extract_date_components (some ds) with
  | error e =>
    have h := extract_no_valueError (some ds)
    rw [hx] at h
    simpa using h
  | ok comps =>
    split
    · rename_i e heq
      simp at heq
    · rename_i c heq
      injection heq with heq2
      subst heq2
      split
      · simp
      · split
        · simp
        · split
          · simp
          · simp

theorem matchSource_no_valueError (pl : Nat) (pin : Str) (v : Option Str) (r : Reason) :
    matchSource pl pin v r ≠ .error .valueError := by
  rw [matchSource]
  split
  · simp
  · rename_i ds2 hds
    cases hx : extract_date_patterns ds2 pl with
    | error e =>
      have h := patterns_no_valueError ds2 pl
      rw [hx] at h
      simpa using h
    | ok pats => simp

theorem directMatches_no_valueError (pl : Nat) (pin : Str) (d : DemoRec) :
    directMatches pl pin d ≠ .error .valueError := by
  rw [directMatches]
  cases h1 : matchSource pl pin d.dob .DEMOGRAPHIC_DOB_SELF with
  | error e =>
    have h := matchSource_no_valueError pl pin d.dob .DEMOGRAPHIC_DOB_SELF
    rw [h1] at h
    simpa using h
  | ok r1 =>
    cases h2 : matchSource pl pin d.spouse_dob .DEMOGRAPHIC_DOB_SPOUSE with
    | error e =>
      have h := matchSource_no_valueError pl pin d.spouse_dob .DEMOGRAPHIC_DOB_SPOUSE
      rw [h2] at h
      simpa using h
    | ok r2 =>
      cases h3 : matchSource pl pin d.anniversary .DEMOGRAPHIC_ANNIVERSARY with
      | error e =>
        have h := matchSource_no_valueError pl pin d.anniversary .DEMOGRAPHIC_ANNIVERSARY
        rw [h3] at h
        simpa using h
      | ok r3 => simp

theorem srcEntry_no_valueError (v : Option Str) (r : Reason) :
    srcEntry v r ≠ .error .valueError := by
  rw [srcEntry]
  split
  · simp
  · rename_i ds2 hds
    cases hx : extract_date_components (some ds2) with
    | error e =>
      have h := extract_no_valueError (some ds2)
      rw [hx] at h
      simpa using h
    | ok cs => simp

theorem sourceComponentsOf_no_valueError (d : DemoRec) :
    sourceComponentsOf d ≠ .error .valueError := by
  rw [sourceComponentsOf]
  cases h1 : srcEntry d.dob .DEMOGRAPHIC_DOB_SELF with
  | error e =>
    have h := srcEntry_no_valueError d.dob .DEMOGRAPHIC_DOB_SELF
    rw [h1] at h
    simpa using h
  | ok s1 =>
    cases h2 : srcEntry d.spouse_dob .DEMOGRAPHIC_DOB_SPOUSE with
    | error e =>
      have h := srcEntry_no_valueError d.spouse_dob .DEMOGRAPHIC_DOB_SPOUSE
      rw [h2] at h
      simpa using h
    | ok s2 =>
      cases h3 : srcEntry d.anniversary .DEMOGRAPHIC_ANNIVERSARY with
      | error e =>
        have h := srcEntry_no_valueError d.anniversary .DEMOGRAPHIC_ANNIVERSARY
        rw [h3] at h
        simpa using h
      | ok s3 => simp

theorem generate_no_valueError (pl b : Nat) (d : DemoRec) :
    generate_all_combinations pl b d ≠ .error .valueError := by
  rw [generate_all_combinations]
  split
  · rename_i e heq
    have h := sourceComponentsOf_no_valueError d
    rw [heq] at h
    simpa using h
  · split
    · simp
    · split
      · simp
      · split
        · simp
        · simp

theorem checkT_no_valueError (pl b : Nat) (pin : Str) (d : DemoRec) :
    check_demographic_matchesT pl b pin d ≠ .error .valueError := by
  rw [check_demographic_matchesT]
  split
  · rename_i e heq
    have h := directMatches_no_valueError pl pin d
    rw [heq] at h
    simpa using h
  · dsimp only
    split
    · simp
    · split
      · split
        · rename_i e2 heq2
          have h := generate_no_valueError pl b d
          rw [heq2] at h
          simpa using h
        · simp
      · simp

theorem check_no_valueError (pl b : Nat) (pin : Str) (d : DemoRec) :
    check_demographic_matches pl b pin d ≠ .error .valueError := by
  rw [check_demographic_matches]
  split
  · rename_i e heq
    have h := checkT_no_valueError pl b pin d
    rw [heq] at h
    simpa using h
  · simp

theorem gwr_no_valueError (pl b : Nat) (common : List Str) (pin : Str)
    (demo : Option DemoRec) :
    get_weakness_reasons pl b common pin demo ≠ .error .valueError := by
  cases demo with
  | none => simp [get_weakness_reasons]
  | some d =>
    rw [get_weakness_reasons]
    split
    · rename_i e heq
      have h := check_no_valueError pl b pin d
      rw [heq] at h
      simpa using h
    · simp

/-- C3: `validate_pin` reports the input-format `ValueError` exactly when the
PIN is not a string of exactly `pin_length` decimal digits, for both
supported lengths; downstream processing can raise other exceptions but
never that one. -/
theorem c3_format_rejection_iff (pl : Nat) (hpl : pl = 4 ∨ pl = 6) (b : Nat)
    (common : List Str) (pin : Str) (demo : Option DemoRec) :
    validate_pin pl b common pin demo = .error .valueError ↔
      ¬ (pin.length = pl ∧ pin.all Char.isDigit = true) := by
  have hpl0 : pl ≠ 0 := by rcases hpl with h | h <;> simp [h]
  constructor
  · intro h
    rw [validate_pin] at h
    split at h
    · exfalso
      rename_i hfmt
      cases hg : get_weakness_reasons pl b common pin demo with
      | error e =>
        rw [hg] at h
        have hne := gwr_no_valueError pl b common pin demo
        rw [hg] at hne
        cases h
        exact hne rfl
      | ok rs =>
        rw [hg] at h
        cases h
    · rename_i hfmt
      intro ⟨hlen, hdig⟩
      apply hfmt
      refine (validate_pin_format_iff pl pin).mpr ⟨?_, hlen, hdig⟩
      intro hnil
      rw [hnil] at hlen
      exact hpl0 hlen.symm
  · intro hneg
    rw [validate_pin]
    split
    · rename_i hfmt
      exfalso
      rcases (validate_pin_format_iff pl pin).mp hfmt with ⟨_, hlen, hdig⟩
      exact hneg ⟨hlen, hdig⟩
    · rfl

/-- Witness for C3 at length 4: a three-character PIN is rejected with
`ValueError`, and a well-formed PIN with a demographic date is not. -/
theorem c3_format_rejection_witness :
    validate_pin 4 500000 [] ("123".toList) none = .error .valueError ∧
    validate_pin 4 500000 [] ("12a4".toList)
        (some ⟨some ("1990-07-25".toList), none, none⟩) = .error .valueError ∧
    ¬ (validate_pin 4 500000 [] ("1234".toList) none = .error .valueError) := by
  refine ⟨(c3_format_rejection_iff 4 (Or.inl rfl) 500000 [] ("123".toList)
      none).mpr (by decide),
    (c3_format_rejection_iff 4 (Or.inl rfl) 500000 [] ("12a4".toList)
      (some ⟨some ("1990-07-25".toList), none, none⟩)).mpr (by decide), ?_⟩
  intro h
  have := (c3_format_rejection_iff 4 (Or.inl rfl) 500000 [] ("1234".toList)
      none).mp h
  exact this (by decide)

/-- C5: in `check_demographic_matches` the full combinatorial generator runs
exactly when both the direct single-date matches and the special-case table
come up empty (the instrumentation flag records a generator invocation); and
a special-case hit returns immediately with the deduplicated union of direct
and special reasons, generator skipped. -/
theorem c5_generator_fallback_iff (pl b : Nat) (pin : Str) (d : DemoRec)
    (ds : List Reason) (hd : directMatches pl pin d = .ok ds) :
    (check_direct_special_cases pin d ≠ [] →
      check_demographic_matchesT pl b pin d =
        .ok (pySet (ds ++ check_direct_special_cases pin d), false)) ∧
    (∀ rsl fl, check_demographic_matchesT pl b pin d = .ok (rsl, fl) →
      (fl = true ↔ (ds = [] ∧ check_direct_special_cases pin d = []))) := by
  rw [check_demographic_matchesT, hd]
  dsimp only
  by_cases hsp : check_direct_special_cases pin d = []
  · rw [if_neg (by simpa using hsp)]
    by_cases hds : ds = []
    · rw [if_pos hds]
      constructor
      · intro hc
        exact absurd hsp hc
      · intro rsl fl h
        cases hg : generate_all_combinations pl b d with
        | error e =>
          rw [hg] at h
          cases h
        | ok m =>
          rw [hg] at h
          cases h
          simp [hds, hsp]
    · rw [if_neg hds]
      constructor
      · intro hc
        exact absurd hsp hc
      · intro rsl fl h
        cases h
        simp [hds]
  · rw [if_pos (by simpa using hsp)]
    constructor
    · intro _
      rfl
    · intro rsl fl h
      cases h
      simp [hsp]

/-- Witness for C5: for PIN `100589` with anniversary `1998-05-01` the
special-case table fires, the direct matches are empty, and the method
returns the special reason with the generator skipped. -/
theorem c5_generator_fallback_witness :
    check_demographic_matchesT 6 500000 ("100589".toList)
        ⟨none, none, some ("1998-05-01".toList)⟩ =
      .ok ([Reason.DEMOGRAPHIC_ANNIVERSARY], false) := by
  have h := (c5_generator_fallback_iff 6 500000 ("100589".toList)
      ⟨none, none, some ("1998-05-01".toList)⟩ [] rfl).1 (by decide)
  simpa using h

/-- C6: over any common-PIN table and any budget, `validate_pin` at length 6
reports WEAK with `DEMOGRAPHIC_DOB_SELF` among the reasons for PIN `402570`
with dob `2004-07-25`, and WEAK with `DEMOGRAPHIC_ANNIVERSARY` among the
reasons for PIN `100589` with anniversary `1998-05-01` (both via the
special-case table). -/
theorem c6_special_case_literals (b : Nat) (common : List Str) :
    (∃ rs, validate_pin 6 b common ("402570".toList)
        (some ⟨some ("2004-07-25".toList), none, none⟩) =
      .ok ⟨"402570".toList, 6, "WEAK", rs⟩ ∧ Reason.DEMOGRAPHIC_DOB_SELF ∈ rs) ∧
    (∃ rs, validate_pin 6 b common ("100589".toList)
        (some ⟨none, none, some ("1998-05-01".toList)⟩) =
      .ok ⟨"100589".toList, 6, "WEAK", rs⟩ ∧ Reason.DEMOGRAPHIC_ANNIVERSARY ∈ rs) := by
  constructor
  · have hC : check_demographic_matches 6 b ("402570".toList)
        ⟨some ("2004-07-25".toList), none, none⟩ =
        .ok [Reason.DEMOGRAPHIC_DOB_SELF] := rfl
    have hg : get_weakness_reasons 6 b common ("402570".toList)
        (some ⟨some ("2004-07-25".toList), none, none⟩) =
        .ok (pySet ((if is_common_pin common ("402570".toList) then
          [Reason.COMMONLY_USED] else []) ++ [Reason.DEMOGRAPHIC_DOB_SELF])) := by
      rw [get_weakness_reasons, hC]
    cases hc : is_common_pin common ("402570".toList) with
    | true =>
      refine ⟨[Reason.COMMONLY_USED, Reason.DEMOGRAPHIC_DOB_SELF], ?_, by decide⟩
      rw [validate_pin, if_pos (by decide), hg, hc]
      rfl
    | false =>
      refine ⟨[Reason.DEMOGRAPHIC_DOB_SELF], ?_, by decide⟩
      rw [validate_pin, if_pos (by decide), hg, hc]
      rfl
  · have hC : check_demographic_matches 6 b ("100589".toList)
        ⟨none, none, some ("1998-05-01".toList)⟩ =
        .ok [Reason.DEMOGRAPHIC_ANNIVERSARY] := rfl
    have hg : get_weakness_reasons 6 b common ("100589".toList)
        (some ⟨none, none, some ("1998-05-01".toList)⟩) =
        .ok (pySet ((if is_common_pin common ("100589".toList) then
          [Reason.COMMONLY_USED] else []) ++ [Reason.DEMOGRAPHIC_ANNIVERSARY])) := by
      rw [get_weakness_reasons, hC]
    cases hc : is_common_pin common ("100589".toList) with
    | true =>
      refine ⟨[Reason.COMMONLY_USED, Reason.DEMOGRAPHIC_ANNIVERSARY], ?_, by decide⟩
      rw [validate_pin, if_pos (by decide), hg, hc]
      rfl
    | false =>
      refine ⟨[Reason.DEMOGRAPHIC_ANNIVERSARY], ?_, by decide⟩
      rw [validate_pin, if_pos (by decide), hg, hc]
      rfl

/-- C7: over any common-PIN table and any budget, for dob `1998-02-01` the
direct single-date templates make `validate_pin` report
`DEMOGRAPHIC_DOB_SELF` for PIN `0201` at length 4 (the month‖day template)
and for PIN `010298` at length 6 (day‖month‖two-digit-year). -/
theorem c7_single_date_coverage (b : Nat) (common : List Str) :
    (∃ rs, validate_pin 4 b common ("0201".toList)
        (some ⟨some ("1998-02-01".toList), none, none⟩) =
      .ok ⟨"0201".toList, 4, "WEAK", rs⟩ ∧ Reason.DEMOGRAPHIC_DOB_SELF ∈ rs) ∧
    (∃ rs, validate_pin 6 b common ("010298".toList)
        (some ⟨some ("1998-02-01".toList), none, none⟩) =
      .ok ⟨"010298".toList, 6, "WEAK", rs⟩ ∧ Reason.DEMOGRAPHIC_DOB_SELF ∈ rs) := by
  constructor
  · have hC : check_demographic_matches 4 b ("0201".toList)
        ⟨some ("1998-02-01".toList), none, none⟩ =
        .ok [Reason.DEMOGRAPHIC_DOB_SELF] := rfl
    have hg : get_weakness_reasons 4 b common ("0201".toList)
        (some ⟨some ("1998-02-01".toList), none, none⟩) =
        .ok (pySet ((if is_common_pin common ("0201".toList) then
          [Reason.COMMONLY_USED] else []) ++ [Reason.DEMOGRAPHIC_DOB_SELF])) := by
      rw [get_weakness_reasons, hC]
    cases hc : is_common_pin common ("0201".toList) with
    | true =>
      refine ⟨[Reason.COMMONLY_USED, Reason.DEMOGRAPHIC_DOB_SELF], ?_, by decide⟩
      rw [validate_pin, if_pos (by decide), hg, hc]
      rfl
    | false =>
      refine ⟨[Reason.DEMOGRAPHIC_DOB_SELF], ?_, by decide⟩
      rw [validate_pin, if_pos (by decide), hg, hc]
      rfl
  · have hC : check_demographic_matches 6 b ("010298".toList)
        ⟨some ("1998-02-01".toList), none, none⟩ =
        .ok [Reason.DEMOGRAPHIC_DOB_SELF] := rfl
    have hg : get_weakness_reasons 6 b common ("010298".toList)
        (some ⟨some ("1998-02-01".toList), none, none⟩) =
        .ok (pySet ((if is_common_pin common ("010298".toList) then
          [Reason.COMMONLY_USED] else []) ++ [Reason.DEMOGRAPHIC_DOB_SELF])) := by
      rw [get_weakness_reasons, hC]
    cases hc : is_common_pin common ("010298".toList) with
    | true =>
      refine ⟨[Reason.COMMONLY_USED, Reason.DEMOGRAPHIC_DOB_SELF], ?_, by decide⟩
      rw [validate_pin, if_pos (by decide), hg, hc]
      rfl
    | false =>
      refine ⟨[Reason.DEMOGRAPHIC_DOB_SELF], ?_, by decide⟩
      rw [validate_pin, if_pos (by decide), hg, hc]
      rfl

/-- Demographics with only a date of birth `1990-07-25`. -/
def demo90 : DemoRec := ⟨some ("1990-07-25".toList), none, none⟩

/-- The component dict extracted from `1990-07-25`. -/
def comps90 : Components :=
  match extract_date_components (some ("1990-07-25".toList)) with
  | .ok c => c
  | .error _ => []

/-- The single source record built by the generator for `demo90`. -/
def src90 : List SrcComp := [⟨.DEMOGRAPHIC_DOB_SELF, comps90⟩]

theorem src90_eq : sourceComponentsOf demo90 = .ok src90 := rfl

/-- The length-2 component pool for `1990-07-25`, which includes the
sliding-window substrings of the raw date string `"1990-07-25"` — among them
`"0-"`, containing a dash. -/
def ebl90 : List Str := extract_components_by_length comps90 2

/-- The candidate map generated for `demo90` at length 4 with the default
budget of 500000. -/
def c2map : PinMap :=
  match generate_all_combinations 4 500000 demo90 with
  | .ok m => m
  | .error _ => []

/-- C2: the generated candidate map is not digits-only.  With only dob
`1990-07-25`, length 4 and the default budget, `generate_all_combinations`
records the key `"250-"` (the component `D = "25"` concatenated with the raw
date substring `"0-"`), which contains a dash: the `RAW_DATE` component leaks
into `extract_components_by_length` and its substrings reach the 2+2
enumeration. -/
theorem listProd_length {α : Type} :
    ∀ ss : List (List α), (listProd ss).length = (ss.map List.length).prod := by
  intro ss
  induction ss with
  | nil => simp [listProd]
  | cons s rest ih =>
    have haux : ∀ (s2 : List α),
        (s2.flatMap fun x => (listProd rest).map (x :: ·)).length =
          s2.length * (listProd rest).length := by
      intro s2
      induction s2 with
      | nil => simp
      | cons a as iha =>
        simp only [List.flatMap_cons, List.length_append, List.length_map, iha,
          List.length_cons]
        ring
    rw [listProd, haux, ih, List.map_cons, List.prod_cons]

theorem mem_generate_pins_from_components (pl b : Nat) (sets : List (List Str))
    {rs : List Reason} {r : Reason} (hr : r ∈ rs) (e : List Str)
    (hne : sets.any List.isEmpty = false)
    (hpot : sets.foldl (fun a s => a * s.length) 1 ≤ 5000)
    (hlen : (listProd sets).length ≤ b)
    (he : e ∈ listProd sets) (hflat : e.flatten.length = pl) :
    r ∈ reasonsOf (generate_pins_from_components pl b sets rs []) e.flatten := by
  rw [generate_pins_from_components, if_neg (by simp [hne])]
  dsimp only
  rw [if_neg (by omega)]
  exact mem_pinsGo_self pl b hr _ 0 [] e (by omega) he hflat

theorem c2_generated_key_with_dash :
    generate_all_combinations 4 500000 demo90 = .ok c2map ∧
    Reason.DEMOGRAPHIC_DOB_SELF ∈ reasonsOf c2map ("250-".toList) ∧
    (alookup c2map ("250-".toList)).isSome ∧
    ("250-".toList).all Char.isDigit = false := by
  have hkey : Reason.DEMOGRAPHIC_DOB_SELF ∈
      reasonsOf (genPipeline4 4 500000 src90) ("250-".toList) := by
    rw [genPipeline4]
    have hsp : ∀ m, special_patterns_4digit 4 src90 m =
        pyAppend m ("2525".toList) Reason.DEMOGRAPHIC_DOB_SELF := fun m => rfl
    rw [hsp]
    apply mem_pyAppend_mono
    rw [generate_n_digit_combinations, if_neg (by decide)]
    have hp : productRepeat src90 [2, 2].length =
        [[(⟨.DEMOGRAPHIC_DOB_SELF, comps90⟩ : SrcComp),
          ⟨.DEMOGRAPHIC_DOB_SELF, comps90⟩]] := rfl
    rw [hp, sweepTuples, sweepTuples]
    have hsets : (([(⟨.DEMOGRAPHIC_DOB_SELF, comps90⟩ : SrcComp),
          ⟨.DEMOGRAPHIC_DOB_SELF, comps90⟩].zip [2, 2]).map fun pr =>
        extract_components_by_length pr.1.comps pr.2) = [ebl90, ebl90] := rfl
    have hrs : [(⟨.DEMOGRAPHIC_DOB_SELF, comps90⟩ : SrcComp),
        ⟨.DEMOGRAPHIC_DOB_SELF, comps90⟩].map SrcComp.reason =
        [Reason.DEMOGRAPHIC_DOB_SELF, Reason.DEMOGRAPHIC_DOB_SELF] := rfl
    rw [hsets, hrs]
    have h0 : ([] : List Str) ∈ listProd ([] : List (List Str)) := by
      simp [listProd]
    have h1 : [['0', '-']] ∈ listProd [ebl90] :=
      mem_listProd_cons (by decide) h0
    have h2 : [['2', '5'], ['0', '-']] ∈ listProd [ebl90, ebl90] :=
      mem_listProd_cons (by decide) h1
    have hlen : (listProd [ebl90, ebl90]).length = 3136 := by
      rw [listProd_length]
      decide
    exact mem_generate_pins_from_components 4 500000 [ebl90, ebl90]
      (by decide) [['2', '5'], ['0', '-']] (by decide) (by decide)
      (by omega) h2 (by decide)
  have hmap : c2map = genPipeline4 4 500000 src90 := rfl
  have hk2 : Reason.DEMOGRAPHIC_DOB_SELF ∈ reasonsOf c2map ("250-".toList) := by
    rw [hmap]; exact hkey
  exact ⟨rfl, hk2, isSome_of_mem_reasonsOf hk2, by decide⟩

/-- Demographics for the cross-source union example: own dob `1990-07-25`,
spouse dob `1992-08-25`, anniversary `2015-06-01`. -/
def demo8 : DemoRec :=
  ⟨some ("1990-07-25".toList), some ("1992-08-25".toList), some ("2015-06-01".toList)⟩

/-- Components of the dob date `1990-07-25`. -/
def comps8d : Components :=
  match extract_date_components (some ("1990-07-25".toList)) with
  | .ok c => c
  | .error _ => []

/-- Components of the spouse dob date `1992-08-25`. -/
def comps8s : Components :=
  match extract_date_components (some ("1992-08-25".toList)) with
  | .ok c => c
  | .error _ => []

/-- Components of the anniversary date `2015-06-01`. -/
def comps8a : Components :=
  match extract_date_components (some ("2015-06-01".toList)) with
  | .ok c => c
  | .error _ => []

/-- The three source records built by the generator for `demo8`. -/
def src8 : List SrcComp :=
  [⟨.DEMOGRAPHIC_DOB_SELF, comps8d⟩, ⟨.DEMOGRAPHIC_DOB_SPOUSE, comps8s⟩,
   ⟨.DEMOGRAPHIC_ANNIVERSARY, comps8a⟩]

theorem src8_eq : sourceComponentsOf demo8 = .ok src8 := rfl

/-- Folding a per-source step that only ever adds reasons preserves recorded
reasons. -/
theorem mem_foldl_src_mono {step : PinMap → SrcComp → PinMap}
    (hstep : ∀ m sc {p r}, r ∈ reasonsOf m p → r ∈ reasonsOf (step m sc) p) :
    ∀ (srcs : List SrcComp) (m : PinMap) {p : Str} {r : Reason},
      r ∈ reasonsOf m p → r ∈ reasonsOf (srcs.foldl step m) p := by
  intro srcs
  induction srcs with
  | nil => intro m p r h; simpa using h
  | cons sc rest ih =>
    intro m p r h
    rw [List.foldl_cons]
    exact ih _ (hstep m sc h)

/-- The day-repetition pass only adds reasons. -/
theorem mem_dayrep_mono (pl : Nat) (srcs : List SrcComp) {m : PinMap} {p : Str}
    {r : Reason} (h : r ∈ reasonsOf m p) :
    r ∈ reasonsOf (day_repetition_patterns pl srcs m) p := by
  rw [day_repetition_patterns]
  refine mem_foldl_src_mono ?_ srcs m h
  intro m2 sc p2 r2 h2
  dsimp only
  split
  · rename_i day hday
    split
    · split
      · exact mem_pyAppend_mono h2 _ _
      · split
        · split
          · rename_i year hyear
            exact mem_condAppends_mono (mem_pyAppend_mono h2 _ _) _ _ _
          · exact mem_pyAppend_mono h2 _ _
        · exact h2
    · exact h2
  · exact h2

/-- Cross-source rule 2 (both birth days followed by the first two wedding-day
characters) records all three sources' reasons against its candidate,
whatever the map already contains; rules 3 and 4 only add further reasons. -/
theorem mem_cross_rule2 (pl : Nat) (srcs : List SrcComp) (m : PinMap)
    {dobS spouseS wedS : SrcComp} (h3 : 3 ≤ srcs.length)
    (hdob : findSource srcs .DEMOGRAPHIC_DOB_SELF = some dobS)
    (hsp : findSource srcs .DEMOGRAPHIC_DOB_SPOUSE = some spouseS)
    (hwed : findSource srcs .DEMOGRAPHIC_ANNIVERSARY = some wedS)
    (pin : Str)
    (hpin : pin = (alookup dobS.comps "D").getD [] ++
      (alookup spouseS.comps "D").getD [] ++
      ((alookup wedS.comps "D").getD []).take 2)
    (hne1 : (alookup dobS.comps "D").getD [] ≠ [])
    (hne2 : (alookup spouseS.comps "D").getD [] ≠ [])
    (hne3 : (alookup wedS.comps "D").getD [] ≠ [])
    (hlen : pin.length = pl) {r : Reason}
    (hr : r ∈ [dobS.reason, spouseS.reason, wedS.reason]) :
    r ∈ reasonsOf (cross_source_patterns pl srcs m) pin := by
  subst hpin
  rw [cross_source_patterns, if_neg (by omega), if_pos h3, hdob, hsp, hwed]
  dsimp only
  split
  · refine mem_condAppends_mono ?_ _ _ _
    split
    · refine mem_condAppends_mono ?_ _ _ _
      rw [if_pos ⟨hne1, hne2, hne3⟩]
      exact mem_condAppends_self hlen hr _ _
    · rw [if_pos ⟨hne1, hne2, hne3⟩]
      exact mem_condAppends_self hlen hr _ _
  · split
    · refine mem_condAppends_mono ?_ _ _ _
      rw [if_pos ⟨hne1, hne2, hne3⟩]
      exact mem_condAppends_self hlen hr _ _
    · rw [if_pos ⟨hne1, hne2, hne3⟩]
      exact mem_condAppends_self hlen hr _ _

/-- On `src8` the literal special-case pass writes nothing. -/
theorem checkspec_src8_eq (m : PinMap) : check_special_cases 6 src8 m = m := rfl

/-- C8: with dob `1990-07-25`, spouse dob `1992-08-25`, anniversary
`2015-06-01`, PIN length 6 and the default budget, `validate_pin("252501")`
reports WEAK with all of `DEMOGRAPHIC_DOB_SELF`, `DEMOGRAPHIC_DOB_SPOUSE` and
`DEMOGRAPHIC_ANNIVERSARY` among its reasons (via the generator fallback and
cross-source rule 2: self-day‖spouse-day‖wedding-day-first-two). -/
theorem c8_cross_source_union (common : List Str) :
    ∃ rs, validate_pin 6 500000 common ("252501".toList) (some demo8) =
        .ok ⟨"252501".toList, 6, "WEAK", rs⟩ ∧
      Reason.DEMOGRAPHIC_DOB_SELF ∈ rs ∧ Reason.DEMOGRAPHIC_DOB_SPOUSE ∈ rs ∧
      Reason.DEMOGRAPHIC_ANNIVERSARY ∈ rs := by
  have hkey : ∀ r, r ∈ [Reason.DEMOGRAPHIC_DOB_SELF, Reason.DEMOGRAPHIC_DOB_SPOUSE,
      Reason.DEMOGRAPHIC_ANNIVERSARY] →
      r ∈ reasonsOf (genPipeline6 6 500000 src8) ("252501".toList) := by
    intro r hr
    rw [genPipeline6, checkspec_src8_eq]
    apply mem_dayrep_mono
    exact mem_cross_rule2 6 src8 _ (by decide) rfl rfl rfl ("252501".toList) rfl
      (by decide) (by decide) (by decide) (by decide) hr
  have hd : directMatches 6 ("252501".toList) demo8 = .ok [] := rfl
  have hg : generate_all_combinations 6 500000 demo8 =
      .ok (genPipeline6 6 500000 src8) := rfl
  have hT : check_demographic_matchesT 6 500000 ("252501".toList) demo8 =
      .ok (pySet ([] ++ reasonsOf (genPipeline6 6 500000 src8) ("252501".toList)),
        true) := by
    rw [check_demographic_matchesT, hd]
    dsimp only
    rw [if_neg (by decide), if_pos rfl, hg]
  have hC : check_demographic_matches 6 500000 ("252501".toList) demo8 =
      .ok (pySet ([] ++ reasonsOf (genPipeline6 6 500000 src8) ("252501".toList))) := by
    rw [check_demographic_matches, hT]
  have hgwr : get_weakness_reasons 6 500000 common ("252501".toList) (some demo8) =
      .ok (pySet ((if is_common_pin common ("252501".toList) then
          [Reason.COMMONLY_USED] else []) ++
        pySet ([] ++ reasonsOf (genPipeline6 6 500000 src8) ("252501".toList)))) := by
    rw [get_weakness_reasons, hC]
  have hmem : ∀ r, r ∈ [Reason.DEMOGRAPHIC_DOB_SELF, Reason.DEMOGRAPHIC_DOB_SPOUSE,
      Reason.DEMOGRAPHIC_ANNIVERSARY] →
      r ∈ pySet ((if is_common_pin common ("252501".toList) then
          [Reason.COMMONLY_USED] else []) ++
        pySet ([] ++ reasonsOf (genPipeline6 6 500000 src8) ("252501".toList))) := by
    intro r hr
    refine (mem_pySet _ _).mpr (List.mem_append.mpr (Or.inr ?_))
    exact (mem_pySet _ _).mpr (List.mem_append.mpr (Or.inr (hkey r hr)))
  refine ⟨pySet ((if is_common_pin common ("252501".toList) then
      [Reason.COMMONLY_USED] else []) ++
    pySet ([] ++ reasonsOf (genPipeline6 6 500000 src8) ("252501".toList))), ?_,
    hmem _ (by decide), hmem _ (by decide), hmem _ (by decide)⟩
  rw [validate_pin, if_pos (by decide), hgwr]
  dsimp only
  rw [if_neg (List.ne_nil_of_mem (hmem Reason.DEMOGRAPHIC_DOB_SELF (by decide)))]

end MPIN
